import Mathlib

/-!
Shallow embedding of the Vortex wire-envelope codec (dragonflyoss/vortex,
`src/lib.rs`).  Byte buffers are `List Nat` whose elements are byte values;
fallible operations return `Except Error`.  The randomness source used by
`Vortex::new` (`thread_rng`) is made explicit as a stream of pre-drawn bytes
that construction consumes from the front.

The crate modules `error.rs` and `tlv/…` (tag registry and the payload
collaborators) are not part of the sources at hand; they are modelled from the
specification, each such definition carrying a doc comment that says so.
Everything else is translated directly from `src/lib.rs`.
-/

/-- HEADER_SIZE is the size of the Vortex packet header including the packet
identifier, tag, and length (`src/lib.rs:26`). -/
def HEADER_SIZE : Nat := 6

/-- MAX_VALUE_SIZE is the maximum size of the value field, 4 GiB
(`src/lib.rs:29`). -/
def MAX_VALUE_SIZE : Nat := 4 * 1024 * 1024 * 1024

/-- Modelled from the spec: the error taxonomy of `error.rs`, which is not in
the sources at hand.  Spec §7 lists a structural error (`InvalidPacket` in
`lib.rs`), a length-violation error (`InvalidLength` in `lib.rs`), a payload
error from a collaborator, and a numeric-conversion error produced by the
fallible byte-slice-to-array conversion (the `?` on `try_into` at
`lib.rs:136`). -/
inductive Error where
  | InvalidPacket (msg : String)
  | InvalidLength (msg : String)
  | InvalidPayload (msg : String)
  | TryFromSlice (msg : String)
deriving DecidableEq

/-- Modelled from the spec: `error::Result<T>`, the crate-wide result alias
of `error.rs` (used throughout `lib.rs`). -/
abbrev Result (α : Type) := Except Error α

namespace tlv

/-- Modelled from the spec: the tag registry of `tlv/mod.rs`, which is not in
the sources at hand.  Spec §3/§4.2: a closed set of known variants
(download-request, content-chunk, close, error) plus a catch-all reserved
variant preserving the original unmapped byte value. -/
inductive Tag where
  | DownloadPiece
  | PieceContent
  | Reserved (value : Nat)
  | Close
  | Error
deriving DecidableEq

/-- Modelled from the spec: the byte-to-tag conversion of `tlv/mod.rs`.
Spec §4.2: known protocol codes map to their named variant and every other
byte maps to the reserved variant carrying the original byte; absent evidence
of a disallowed sentinel, all byte values are accepted, so the conversion is
total.  The concrete code assignment is an open question of spec §9; this
model assigns 0 to the download request, 1 to the content chunk, 254 to
close and 255 to the error tag. -/
def Tag.fromByte (b : Nat) : Tag :=
  if b = 0 then .DownloadPiece
  else if b = 1 then .PieceContent
  else if b = 254 then .Close
  else if b = 255 then .Error
  else .Reserved b

/-- Modelled from the spec: the tag-to-byte conversion of `tlv/mod.rs`
(`header.tag.into()` at `lib.rs:175`), inverse of `Tag.fromByte`; the
reserved variant retains the original byte. -/
def Tag.toByte : Tag → Nat
  | .DownloadPiece => 0
  | .PieceContent => 1
  | .Reserved b => b
  | .Close => 254
  | .Error => 255

/-- Modelled from the spec: the download-request payload collaborator
(`tlv/download_piece.rs`), which is not in the sources at hand.  Spec §1/§6
leave the concrete payload encodings out of scope and specify only the
interface: `decode : bytes → Result` and `encode : payload → bytes`.  The
payload is modelled as carrying its value bytes verbatim. -/
structure DownloadPiece where
  bytes : List Nat
deriving DecidableEq

/-- Modelled from the spec: `DownloadPiece::try_from(Bytes)`.  Spec §3 (size
invariant) requires the 4 GiB ceiling to be enforced at construction time,
and `lib.rs`'s `new` performs no such check before dispatching to the
collaborators, so the check lives here; `lib.rs`'s `test_error_handling`
confirms that an oversized value makes construction fail with a
length-violation error.  In-range value bytes are accepted verbatim. -/
def DownloadPiece.tryFrom (value : List Nat) : Except Error DownloadPiece :=
  if value.length > MAX_VALUE_SIZE then
    .error (.InvalidLength ("value len " ++ toString value.length ++ " exceeds max value size"))
  else
    .ok ⟨value⟩

/-- Modelled from the spec: `Into<Bytes> for DownloadPiece`
(`lib.rs:163`), the collaborator's `encode`; re-encodes the carried bytes
verbatim. -/
def DownloadPiece.toBytes (p : DownloadPiece) : List Nat := p.bytes

/-- Modelled from the spec: the content-chunk payload collaborator
(`tlv/piece_content.rs`), which is not in the sources at hand.  Spec
scenario 2 shows the chunk's encoded bytes equal to the supplied text, so the
payload carries its value bytes verbatim. -/
structure PieceContent where
  bytes : List Nat
deriving DecidableEq

/-- Modelled from the spec: `PieceContent::try_from(Bytes)`; enforces the
4 GiB ceiling of spec §3 (see `DownloadPiece.tryFrom`) and accepts in-range
value bytes verbatim. -/
def PieceContent.tryFrom (value : List Nat) : Except Error PieceContent :=
  if value.length > MAX_VALUE_SIZE then
    .error (.InvalidLength ("value len " ++ toString value.length ++ " exceeds max value size"))
  else
    .ok ⟨value⟩

/-- Modelled from the spec: `Into<Bytes> for PieceContent` (`lib.rs:166`);
re-encodes the carried bytes verbatim. -/
def PieceContent.toBytes (p : PieceContent) : List Nat := p.bytes

/-- Modelled from the spec: the structured error payload collaborator
(`tlv/error.rs`, named `tlv::error::Error` in the source; renamed here to
avoid clashing with the envelope `Error` type).  Spec §6 specifies its
concrete convention only at the collaborator's side; it is modelled as
carrying its value bytes verbatim. -/
structure ErrorPayload where
  bytes : List Nat
deriving DecidableEq

/-- Modelled from the spec: `tlv::error::Error::try_from(Bytes)`; enforces
the 4 GiB ceiling of spec §3 (see `DownloadPiece.tryFrom`) and accepts
in-range value bytes verbatim. -/
def ErrorPayload.tryFrom (value : List Nat) : Except Error ErrorPayload :=
  if value.length > MAX_VALUE_SIZE then
    .error (.InvalidLength ("value len " ++ toString value.length ++ " exceeds max value size"))
  else
    .ok ⟨value⟩

/-- Modelled from the spec: `Into<Bytes> for tlv::error::Error`
(`lib.rs:170`); re-encodes the carried bytes verbatim. -/
def ErrorPayload.toBytes (e : ErrorPayload) : List Nat := e.bytes

end tlv

deriving instance DecidableEq for Except

/-- Header represents the Vortex packet header (`src/lib.rs:33-37`). -/
structure Header where
  packet_id : Nat
  tag : tlv.Tag
  length : Nat
deriving DecidableEq

/-- Vortex packet: a tagged union of header and tag-specific payload
(`src/lib.rs:62-68`). -/
inductive Vortex where
  | DownloadPiece (header : Header) (payload : tlv.DownloadPiece)
  | PieceContent (header : Header) (payload : tlv.PieceContent)
  | Reserved (header : Header)
  | Close (header : Header)
  | Error (header : Header) (payload : tlv.ErrorPayload)
deriving DecidableEq

/-- Modelled from the spec: the randomness source.  Spec §9 asks for an
explicit injectable generator; it is modelled as a stream of pre-drawn
bytes. -/
abbrev RngState := List Nat

/-- Modelled from the spec: `rng.gen()` for a `u8` (`lib.rs:76`): draws the
next byte from the stream, consuming it. -/
def RngState.gen : RngState → Nat × RngState
  | [] => (0, [])
  | b :: rest => (b % 256, rest)

namespace Vortex

/-- `try_from` of `impl TryFrom<(tlv::Tag, Header, Bytes)> for Vortex`
(`src/lib.rs:187-204`): dispatch on the tag to build the typed payload; the
reserved and close tags discard the value bytes. -/
def tryFrom (tag : tlv.Tag) (header : Header) (value : List Nat) : Result Vortex :=
  match tag with
  | .DownloadPiece => (tlv.DownloadPiece.tryFrom value).map (Vortex.DownloadPiece header)
  | .PieceContent => (tlv.PieceContent.tryFrom value).map (Vortex.PieceContent header)
  | .Reserved _ => .ok (Vortex.Reserved header)
  | .Close => .ok (Vortex.Close header)
  | .Error => (tlv.ErrorPayload.tryFrom value).map (Vortex.Error header)

/-- `Vortex::new` (`src/lib.rs:73-82`): draw a random packet id, build the
header recording the value's length, then dispatch via `try_from`.  Returns
the construction result together with the state of the randomness source
after the call. -/
def new (rng : RngState) (tag : tlv.Tag) (value : List Nat) :
    Result Vortex × RngState :=
  let drawn := rng.gen
  let header : Header := { packet_id := drawn.1, tag := tag, length := value.length }
  (tryFrom tag header value, drawn.2)

/-- `Vortex::packet_id` (`src/lib.rs:86-94`). -/
def packet_id : Vortex → Nat
  | .DownloadPiece header _ => header.packet_id
  | .PieceContent header _ => header.packet_id
  | .Reserved header => header.packet_id
  | .Close header => header.packet_id
  | .Error header _ => header.packet_id

/-- `Vortex::tag` (`src/lib.rs:98-106`). -/
def tag : Vortex → tlv.Tag
  | .DownloadPiece header _ => header.tag
  | .PieceContent header _ => header.tag
  | .Reserved header => header.tag
  | .Close header => header.tag
  | .Error header _ => header.tag

/-- `Vortex::length` (`src/lib.rs:110-118`). -/
def length : Vortex → Nat
  | .DownloadPiece header _ => header.length
  | .PieceContent header _ => header.length
  | .Reserved header => header.length
  | .Close header => header.length
  | .Error header _ => header.length

/-- The header component of the `(header, value)` match in `Vortex::to_bytes`
(`src/lib.rs:161-171`). -/
def headerOf : Vortex → Header
  | .DownloadPiece header _ => header
  | .PieceContent header _ => header
  | .Reserved header => header
  | .Close header => header
  | .Error header _ => header

/-- The value component of the `(header, value)` match in `Vortex::to_bytes`
(`src/lib.rs:161-171`): the payload collaborator's serialization, an empty
byte sequence for the reserved and close tags. -/
def serializedValue : Vortex → List Nat
  | .DownloadPiece _ payload => payload.toBytes
  | .PieceContent _ payload => payload.toBytes
  | .Reserved _ => []
  | .Close _ => []
  | .Error _ payload => payload.toBytes

end Vortex

/-- `put_u32` of the value length cast to `u32` (`lib.rs:176`): the four
big-endian bytes of `n` truncated to 32 bits. -/
def toBe32 (n : Nat) : List Nat :=
  [n / 2 ^ 24 % 256, n / 2 ^ 16 % 256, n / 2 ^ 8 % 256, n % 256]

/-- `u32::from_be_bytes(slice.try_into()?)` (`lib.rs:136`): the `try_into`
conversion to a 4-byte array fails unless the slice has exactly 4 bytes, in
which case the big-endian 32-bit value is read. -/
def u32FromBeBytes (l : List Nat) : Except Error Nat :=
  if l.length = 4 then
    .ok (l.getD 0 0 * 2 ^ 24 + l.getD 1 0 * 2 ^ 16 + l.getD 2 0 * 2 ^ 8 + l.getD 3 0)
  else
    .error (.TryFromSlice "could not convert slice to array")

namespace Vortex

/-- `Vortex::from_bytes` (`src/lib.rs:121-157`): require at least 6 bytes,
split the header from the value, read packet id, tag and big-endian length,
check the value's length against the declared length, then dispatch via
`try_from`.  The tag conversion is total (see `tlv.Tag.fromByte`), so the
`map_err` branch of `lib.rs:135` produces no error here. -/
def from_bytes (bytes : List Nat) : Result Vortex :=
  if bytes.length < HEADER_SIZE then
    .error (.InvalidPacket ("expected min " ++ toString HEADER_SIZE ++ " bytes, got "
      ++ toString bytes.length))
  else
    let header := bytes.take HEADER_SIZE
    let value := bytes.drop HEADER_SIZE
    let packet_id := header.getD 0 0
    let tg := tlv.Tag.fromByte (header.getD 1 0)
    match u32FromBeBytes (header.drop 2) with
    | .error e => .error e
    | .ok len =>
      if value.length ≠ len then
        .error (.InvalidLength ("value len " ++ toString value.length
          ++ " != declared length " ++ toString len))
      else
        tryFrom tg { packet_id := packet_id, tag := tg, length := len } value

/-- `Vortex::to_bytes` (`src/lib.rs:160-179`): packet id byte, tag code byte,
the serialized value's length as four big-endian bytes (the `as u32` cast),
then the serialized value bytes. -/
def to_bytes (v : Vortex) : List Nat :=
  let header := v.headerOf
  let value := v.serializedValue
  header.packet_id :: header.tag.toByte :: toBe32 value.length ++ value

end Vortex

/-- The value of the 32-bit big-endian length field at offsets 2-5 of a wire
buffer (spec §6 wire-format table). -/
def declaredLength (bytes : List Nat) : Nat :=
  bytes.getD 2 0 * 2 ^ 24 + bytes.getD 3 0 * 2 ^ 16 + bytes.getD 4 0 * 2 ^ 8 + bytes.getD 5 0

/-- Arithmetic of the big-endian 32-bit encoding: reassembling the four bytes
written by `toBe32` yields the value reduced modulo `2 ^ 32`. -/
theorem be32_val (n : Nat) :
    n / 2 ^ 24 % 256 * 2 ^ 24 + n / 2 ^ 16 % 256 * 2 ^ 16 + n / 2 ^ 8 % 256 * 2 ^ 8 + n % 256
      = n % 2 ^ 32 := by
  omega

/-- A list of length at least 6 starts with six explicit elements. -/
theorem list_len6_decomp (l : List Nat) (h : 6 ≤ l.length) :
    ∃ b0 b1 b2 b3 b4 b5 rest, l = b0 :: b1 :: b2 :: b3 :: b4 :: b5 :: rest := by
  match l with
  | b0 :: b1 :: b2 :: b3 :: b4 :: b5 :: rest => exact ⟨b0, b1, b2, b3, b4, b5, rest, rfl⟩
  | [] => simp at h
  | [_] => simp at h
  | [_, _] => simp at h
  | [_, _, _] => simp at h
  | [_, _, _, _] => simp at h
  | [_, _, _, _, _] => simp at h

/-- `from_bytes` on a buffer with its six header bytes explicit: the length
check against the big-endian declared length, then dispatch. -/
theorem from_bytes_cons (b0 b1 b2 b3 b4 b5 : Nat) (rest : List Nat) :
    Vortex.from_bytes (b0 :: b1 :: b2 :: b3 :: b4 :: b5 :: rest) =
      (if rest.length = b2 * 2 ^ 24 + b3 * 2 ^ 16 + b4 * 2 ^ 8 + b5 then
        Vortex.tryFrom (tlv.Tag.fromByte b1)
          { packet_id := b0, tag := tlv.Tag.fromByte b1,
            length := b2 * 2 ^ 24 + b3 * 2 ^ 16 + b4 * 2 ^ 8 + b5 } rest
      else
        .error (.InvalidLength ("value len " ++ toString rest.length
          ++ " != declared length "
          ++ toString (b2 * 2 ^ 24 + b3 * 2 ^ 16 + b4 * 2 ^ 8 + b5)))) := by
  simp only [Vortex.from_bytes, HEADER_SIZE, u32FromBeBytes]
  norm_num [List.take, List.drop, List.getD]

/-- Decoding the exact byte shape that `to_bytes` emits reduces to the
`try_from` dispatch, provided the value is shorter than `2 ^ 32` bytes and
the tag's byte code maps back to the tag. -/
theorem from_to_aux (pid : Nat) (tg : tlv.Tag) (value : List Nat)
    (hv : value.length < 2 ^ 32) (htag : tlv.Tag.fromByte tg.toByte = tg) :
    Vortex.from_bytes (pid :: tg.toByte :: toBe32 value.length ++ value) =
      Vortex.tryFrom tg { packet_id := pid, tag := tg, length := value.length } value := by
  have h := be32_val value.length
  simp only [toBe32, List.cons_append, List.nil_append]
  rw [from_bytes_cons, h, Nat.mod_eq_of_lt hv, htag, if_pos rfl]

/-- Successful `try_from` dispatch installs the given header unchanged. -/
theorem tryFrom_ok_header (tg : tlv.Tag) (h : Header) (value : List Nat) (p : Vortex)
    (hok : Vortex.tryFrom tg h value = .ok p) : p.headerOf = h := by
  cases tg with
  | DownloadPiece =>
      by_cases hm : value.length > MAX_VALUE_SIZE <;>
        simp only [Vortex.tryFrom, tlv.DownloadPiece.tryFrom, hm, if_pos, if_neg,
          if_true, if_false, Except.map] at hok
      · exact absurd hok (by simp)
      · cases hok; rfl
  | PieceContent =>
      by_cases hm : value.length > MAX_VALUE_SIZE <;>
        simp only [Vortex.tryFrom, tlv.PieceContent.tryFrom, hm, if_pos, if_neg,
          if_true, if_false, Except.map] at hok
      · exact absurd hok (by simp)
      · cases hok; rfl
  | Reserved b =>
      simp only [Vortex.tryFrom] at hok
      cases hok; rfl
  | Close =>
      simp only [Vortex.tryFrom] at hok
      cases hok; rfl
  | Error =>
      by_cases hm : value.length > MAX_VALUE_SIZE <;>
        simp only [Vortex.tryFrom, tlv.ErrorPayload.tryFrom, hm, if_pos, if_neg,
          if_true, if_false, Except.map] at hok
      · exact absurd hok (by simp)
      · cases hok; rfl

/-- Successful `try_from` dispatch on a payload-carrying tag stores the value
bytes verbatim, so the packet re-serializes to them. -/
theorem tryFrom_ok_payload_value (tg : tlv.Tag) (h : Header) (value : List Nat) (p : Vortex)
    (hok : Vortex.tryFrom tg h value = .ok p)
    (htg : tg = .DownloadPiece ∨ tg = .PieceContent ∨ tg = .Error) :
    p.serializedValue = value := by
  rcases htg with rfl | rfl | rfl <;>
    by_cases hm : value.length > MAX_VALUE_SIZE <;>
      simp only [Vortex.tryFrom, tlv.DownloadPiece.tryFrom, tlv.PieceContent.tryFrom,
        tlv.ErrorPayload.tryFrom, hm, if_true, if_false, Except.map] at hok <;>
      cases hok <;> rfl

/-- The accessor `Vortex::packet_id` reads the header's packet id. -/
theorem packet_id_headerOf (p : Vortex) : p.packet_id = p.headerOf.packet_id := by
  cases p <;> rfl

/-- The accessor `Vortex::tag` reads the header's tag. -/
theorem tag_headerOf (p : Vortex) : p.tag = p.headerOf.tag := by
  cases p <;> rfl

/-- The accessor `Vortex::length` reads the header's length. -/
theorem length_headerOf (p : Vortex) : p.length = p.headerOf.length := by
  cases p <;> rfl

/-- C4: decoding any buffer shorter than 6 bytes fails with a structural
error (`InvalidPacket`) whose message reports the minimum expected size (6)
and the actual size of the buffer. -/
theorem decode_min_size (bytes : List Nat) (h : bytes.length < 6) :
    Vortex.from_bytes bytes =
      .error (.InvalidPacket ("expected min 6 bytes, got " ++ toString bytes.length)) := by
  have h6 : bytes.length < HEADER_SIZE := h
  simp only [Vortex.from_bytes, if_pos h6]
  exact congrArg (fun s => Except.error (Error.InvalidPacket (s ++ toString bytes.length)))
    (by decide)

/-- C4 witness: decoding the 3-byte buffer `[1, 2, 3]` fails with the
structural error citing expected minimum 6 and actual size 3. -/
theorem decode_min_size_witness :
    Vortex.from_bytes [1, 2, 3] =
      .error (.InvalidPacket "expected min 6 bytes, got 3") :=
  (decode_min_size [1, 2, 3] (by decide)).trans (by decide)

/-- C5: decoding any buffer of at least 6 bytes whose trailing value length
differs from the declared big-endian 32-bit header length fails with a
length-violation error (`InvalidLength`) whose message reports both the
observed trailing length and the declared length. -/
theorem decode_length_mismatch (bytes : List Nat) (h6 : 6 ≤ bytes.length)
    (hne : (bytes.drop 6).length ≠ declaredLength bytes) :
    Vortex.from_bytes bytes =
      .error (.InvalidLength ("value len " ++ toString (bytes.drop 6).length
        ++ " != declared length " ++ toString (declaredLength bytes))) := by
  obtain ⟨b0, b1, b2, b3, b4, b5, rest, rfl⟩ := list_len6_decomp bytes h6
  have hd : declaredLength (b0 :: b1 :: b2 :: b3 :: b4 :: b5 :: rest) =
      b2 * 2 ^ 24 + b3 * 2 ^ 16 + b4 * 2 ^ 8 + b5 := by
    norm_num [declaredLength, List.getD]
  have hr : (b0 :: b1 :: b2 :: b3 :: b4 :: b5 :: rest).drop 6 = rest := by
    norm_num [List.drop]
  rw [hd, hr] at hne
  rw [hd, hr, from_bytes_cons, if_neg hne]

/-- C5 witness: the 7-byte buffer declaring length 2 but carrying a 1-byte
value fails with the length-violation error citing 1 and 2. -/
theorem decode_length_mismatch_witness :
    Vortex.from_bytes [9, 7, 0, 0, 0, 2, 33] =
      .error (.InvalidLength "value len 1 != declared length 2") :=
  (decode_length_mismatch [9, 7, 0, 0, 0, 2, 33] (by decide) (by decide)).trans (by decide)

/-- The packet built from a value of exactly `2 ^ 32` bytes (which construction
accepts, the ceiling check being strict) encodes with a truncated wire length
of 0, so decoding its encoding fails. -/
theorem roundtrip_boundary_aux (v : List Nat) (hv : v.length = 2 ^ 32) :
    ((Vortex.new [3] tlv.Tag.PieceContent v).1.bind fun p =>
      Vortex.from_bytes p.to_bytes).isOk = false := by
  have hmax : ¬ v.length > MAX_VALUE_SIZE := by rw [hv]; decide
  have hbe : toBe32 v.length = [0, 0, 0, 0] := by rw [hv]; rfl
  have hne : ¬ v.length = 0 * 2 ^ 24 + 0 * 2 ^ 16 + 0 * 2 ^ 8 + 0 := by rw [hv]; decide
  simp only [Vortex.new, Vortex.tryFrom, tlv.PieceContent.tryFrom, hmax, if_false,
    Except.map, Except.bind]
  have hb : Vortex.to_bytes (Vortex.PieceContent
      ⟨(RngState.gen [3]).1, tlv.Tag.PieceContent, v.length⟩ ⟨v⟩)
      = (RngState.gen [3]).1 :: 1 :: 0 :: 0 :: 0 :: 0 :: v := by
    simp only [Vortex.to_bytes, Vortex.headerOf, Vortex.serializedValue,
      tlv.PieceContent.toBytes, tlv.Tag.toByte, hbe, List.cons_append, List.nil_append]
  rw [hb, from_bytes_cons, if_neg hne]
  rfl

/-- C1 counterexample: the round trip preserves neither the length nor, in
general, the tag.  A packet constructed with the reserved tag 7 and the
1-byte value `[1]` is accepted, but decoding its encoding yields length 0
instead of 1; a packet constructed with the reserved tag 0 (accepted, its
1-byte value below every bound) decodes to a `DownloadPiece`-tagged packet,
the reserved byte colliding with that known code; and a `PieceContent`
packet constructed from exactly `2 ^ 32` bytes (which construction accepts)
fails to decode at all, the wire length having been truncated to 0. -/
theorem construct_roundtrip_counterexample :
    ((Vortex.new [9] (tlv.Tag.Reserved 7) [1]).1.bind fun p =>
      (Vortex.from_bytes p.to_bytes).map fun q => (p.length, q.length)) = .ok (1, 0) ∧
    ((Vortex.new [9] (tlv.Tag.Reserved 0) [7]).1.bind fun p =>
      (Vortex.from_bytes p.to_bytes).map fun q => (p.tag, q.tag))
      = .ok (tlv.Tag.Reserved 0, tlv.Tag.DownloadPiece) ∧
    ((Vortex.new [3] tlv.Tag.PieceContent (List.replicate (2 ^ 32) 0)).1.bind fun p =>
      Vortex.from_bytes p.to_bytes).isOk = false :=
  ⟨rfl, rfl, roundtrip_boundary_aux _ (List.length_replicate _ _)⟩

/-- C1 (amended): for every tag and value accepted by construction with the
value shorter than `2 ^ 32` bytes and a tag whose byte code maps back to it,
decoding the encoding of the constructed packet succeeds and yields a packet
with the same tag, the same packet id, and payload content equal to the
collaborator re-encoding of the value; the decoded length equals the
serialized payload's length, and for the payload-carrying tags it equals the
constructed packet's length and the payload equals the value verbatim. -/
theorem construct_roundtrip_amended (rng : RngState) (tg : tlv.Tag) (value : List Nat)
    (p : Vortex) (hnew : (Vortex.new rng tg value).1 = .ok p)
    (hval : value.length < 2 ^ 32) (htag : tlv.Tag.fromByte tg.toByte = tg) :
    ∃ q, Vortex.from_bytes p.to_bytes = .ok q ∧ q.tag = p.tag ∧
      q.packet_id = p.packet_id ∧ q.serializedValue = p.serializedValue ∧
      q.length = q.serializedValue.length ∧
      ((tg = tlv.Tag.DownloadPiece ∨ tg = tlv.Tag.PieceContent ∨ tg = tlv.Tag.Error) →
        q.length = p.length ∧ q.serializedValue = value) := by
  have hmax : ¬ value.length > MAX_VALUE_SIZE := by
    simp only [MAX_VALUE_SIZE]
    omega
  have hz : ([] : List Nat).length < 2 ^ 32 := by simp
  cases tg with
  | DownloadPiece =>
      simp only [Vortex.new, Vortex.tryFrom, tlv.DownloadPiece.tryFrom, hmax, if_false,
        Except.map] at hnew
      cases hnew
      refine ⟨Vortex.DownloadPiece ⟨(rng.gen).1, .DownloadPiece, value.length⟩ ⟨value⟩,
        (from_to_aux (rng.gen).1 .DownloadPiece value hval htag).trans ?_,
        rfl, rfl, rfl, rfl, fun _ => ⟨rfl, rfl⟩⟩
      simp only [Vortex.tryFrom, tlv.DownloadPiece.tryFrom, hmax, if_false, Except.map]
  | PieceContent =>
      simp only [Vortex.new, Vortex.tryFrom, tlv.PieceContent.tryFrom, hmax, if_false,
        Except.map] at hnew
      cases hnew
      refine ⟨Vortex.PieceContent ⟨(rng.gen).1, .PieceContent, value.length⟩ ⟨value⟩,
        (from_to_aux (rng.gen).1 .PieceContent value hval htag).trans ?_,
        rfl, rfl, rfl, rfl, fun _ => ⟨rfl, rfl⟩⟩
      simp only [Vortex.tryFrom, tlv.PieceContent.tryFrom, hmax, if_false, Except.map]
  | Error =>
      simp only [Vortex.new, Vortex.tryFrom, tlv.ErrorPayload.tryFrom, hmax, if_false,
        Except.map] at hnew
      cases hnew
      refine ⟨Vortex.Error ⟨(rng.gen).1, .Error, value.length⟩ ⟨value⟩,
        (from_to_aux (rng.gen).1 .Error value hval htag).trans ?_,
        rfl, rfl, rfl, rfl, fun _ => ⟨rfl, rfl⟩⟩
      simp only [Vortex.tryFrom, tlv.ErrorPayload.tryFrom, hmax, if_false, Except.map]
  | Reserved b =>
      simp only [Vortex.new, Vortex.tryFrom] at hnew
      cases hnew
      refine ⟨Vortex.Reserved ⟨(rng.gen).1, .Reserved b, ([] : List Nat).length⟩,
        (from_to_aux (rng.gen).1 (.Reserved b) [] hz htag).trans rfl,
        rfl, rfl, rfl, rfl, ?_⟩
      rintro (h | h | h) <;> exact tlv.Tag.noConfusion h
  | Close =>
      simp only [Vortex.new, Vortex.tryFrom] at hnew
      cases hnew
      refine ⟨Vortex.Close ⟨(rng.gen).1, .Close, ([] : List Nat).length⟩,
        (from_to_aux (rng.gen).1 .Close [] hz htag).trans rfl,
        rfl, rfl, rfl, rfl, ?_⟩
      rintro (h | h | h) <;> exact tlv.Tag.noConfusion h

/-- C1 witness: the amended round trip evaluated on the packet constructed
from tag `PieceContent` and value `[1, 2, 3]`. -/
theorem construct_roundtrip_amended_witness :
    ∃ q, Vortex.from_bytes
        (Vortex.PieceContent ⟨9, tlv.Tag.PieceContent, 3⟩ ⟨[1, 2, 3]⟩ : Vortex).to_bytes
          = .ok q ∧
      q.tag = (Vortex.PieceContent ⟨9, tlv.Tag.PieceContent, 3⟩ ⟨[1, 2, 3]⟩ : Vortex).tag ∧
      q.packet_id
        = (Vortex.PieceContent ⟨9, tlv.Tag.PieceContent, 3⟩ ⟨[1, 2, 3]⟩ : Vortex).packet_id ∧
      q.serializedValue
        = (Vortex.PieceContent ⟨9, tlv.Tag.PieceContent, 3⟩ ⟨[1, 2, 3]⟩ : Vortex).serializedValue ∧
      q.length = q.serializedValue.length ∧
      ((tlv.Tag.PieceContent = tlv.Tag.DownloadPiece
          ∨ tlv.Tag.PieceContent = tlv.Tag.PieceContent
          ∨ tlv.Tag.PieceContent = tlv.Tag.Error) →
        q.length = (Vortex.PieceContent ⟨9, tlv.Tag.PieceContent, 3⟩ ⟨[1, 2, 3]⟩ : Vortex).length ∧
        q.serializedValue = [1, 2, 3]) :=
  construct_roundtrip_amended [9] tlv.Tag.PieceContent [1, 2, 3]
    (Vortex.PieceContent ⟨9, tlv.Tag.PieceContent, 3⟩ ⟨[1, 2, 3]⟩)
    (by decide) (by decide) (by decide)

/-- C2 counterexample: a value of `2 ^ 32 + 1` bytes exceeds the maximum
value size, yet construction with the `Close` tag succeeds (no
length-violation error at all), recording the oversized length in the
header. -/
theorem size_ceiling_counterexample :
    (List.replicate (2 ^ 32 + 1) (0 : Nat)).length > MAX_VALUE_SIZE ∧
    (Vortex.new [5] tlv.Tag.Close (List.replicate (2 ^ 32 + 1) (0 : Nat))).1 =
      .ok (Vortex.Close ⟨5, tlv.Tag.Close, (List.replicate (2 ^ 32 + 1) (0 : Nat)).length⟩) := by
  constructor
  · rw [List.length_replicate]; decide
  · rfl

/-- C2 (amended): for every value longer than the maximum value size and
every payload-carrying tag, construction fails with a length-violation
error — but the randomness source is consumed (a packet id is drawn for the
header) before the failure. -/
theorem size_ceiling_amended (rng : RngState) (tg : tlv.Tag) (value : List Nat)
    (htg : tg = tlv.Tag.DownloadPiece ∨ tg = tlv.Tag.PieceContent ∨ tg = tlv.Tag.Error)
    (hlen : value.length > MAX_VALUE_SIZE) :
    (Vortex.new rng tg value).1 =
      .error (.InvalidLength ("value len " ++ toString value.length
        ++ " exceeds max value size")) ∧
    (Vortex.new rng tg value).2 = rng.drop 1 := by
  constructor
  · rcases htg with rfl | rfl | rfl <;>
      simp only [Vortex.new, Vortex.tryFrom, tlv.DownloadPiece.tryFrom,
        tlv.PieceContent.tryFrom, tlv.ErrorPayload.tryFrom, hlen, if_true, Except.map]
  · cases rng <;> rfl

/-- C2 witness: the amended size-ceiling behaviour evaluated at tag
`PieceContent` and a value of `2 ^ 32 + 1` zero bytes. -/
theorem size_ceiling_amended_witness :
    (Vortex.new [5] tlv.Tag.PieceContent (List.replicate (2 ^ 32 + 1) (0 : Nat))).1 =
      .error (.InvalidLength ("value len "
        ++ toString (List.replicate (2 ^ 32 + 1) (0 : Nat)).length
        ++ " exceeds max value size")) ∧
    (Vortex.new [5] tlv.Tag.PieceContent (List.replicate (2 ^ 32 + 1) (0 : Nat))).2
      = [5].drop 1 :=
  size_ceiling_amended [5] tlv.Tag.PieceContent (List.replicate (2 ^ 32 + 1) (0 : Nat))
    (Or.inr (Or.inl rfl)) (by rw [List.length_replicate]; decide)

/-- The four wire bytes at offsets 2-5 of any encoded packet are the
big-endian encoding of the serialized value's length. -/
theorem wire_field_take (p : Vortex) :
    ((p.to_bytes).drop 2).take 4 = toBe32 p.serializedValue.length := by
  simp only [Vortex.to_bytes, toBe32, List.cons_append, List.nil_append]
  norm_num [List.take, List.drop]

/-- C3 counterexample: decoding `[9, 7, 0, 0, 0, 1, 33]` succeeds and yields
a Reserved packet whose stored header length is 1 while its serialized
payload is empty (length 0), and encoding writes wire length 0, not the
stored 1. -/
theorem length_invariant_counterexample :
    Vortex.from_bytes [9, 7, 0, 0, 0, 1, 33] = .ok (Vortex.Reserved ⟨9, tlv.Tag.Reserved 7, 1⟩) ∧
    (Vortex.Reserved ⟨9, tlv.Tag.Reserved 7, 1⟩ : Vortex).length = 1 ∧
    (Vortex.Reserved ⟨9, tlv.Tag.Reserved 7, 1⟩ : Vortex).serializedValue.length = 0 ∧
    Vortex.to_bytes (Vortex.Reserved ⟨9, tlv.Tag.Reserved 7, 1⟩) = [9, 7, 0, 0, 0, 0] :=
  ⟨rfl, rfl, rfl, rfl⟩

/-- C3 (amended): for every packet with a payload-carrying tag produced by
construction or by decoding, the stored header length equals the byte length
of the packet's serialized payload value, and encoding writes exactly that
length into the four wire length bytes. -/
theorem length_invariant_amended (p : Vortex)
    (hsrc : (∃ rng tg value, (Vortex.new rng tg value).1 = .ok p) ∨
            (∃ bytes, Vortex.from_bytes bytes = .ok p))
    (htag : p.tag = tlv.Tag.DownloadPiece ∨ p.tag = tlv.Tag.PieceContent
      ∨ p.tag = tlv.Tag.Error) :
    p.length = p.serializedValue.length ∧
    ((p.to_bytes).drop 2).take 4 = toBe32 p.length := by
  have hmain : p.length = p.serializedValue.length := by
    rcases hsrc with ⟨rng, tg, value, hnew⟩ | ⟨bytes, hfb⟩
    · have hh := tryFrom_ok_header tg
        { packet_id := (rng.gen).1, tag := tg, length := value.length } value p hnew
      have htg2 : tg = tlv.Tag.DownloadPiece ∨ tg = tlv.Tag.PieceContent
          ∨ tg = tlv.Tag.Error := by
        have hpt : p.tag = tg := by rw [tag_headerOf, hh]
        rwa [hpt] at htag
      have hv := tryFrom_ok_payload_value tg
        { packet_id := (rng.gen).1, tag := tg, length := value.length } value p hnew htg2
      rw [length_headerOf, hh, hv]
    · by_cases h6 : bytes.length < 6
      · have h6' : bytes.length < HEADER_SIZE := h6
        simp only [Vortex.from_bytes, h6', if_true] at hfb
        cases hfb
      · push_neg at h6
        obtain ⟨b0, b1, b2, b3, b4, b5, rest, rfl⟩ := list_len6_decomp bytes h6
        rw [from_bytes_cons] at hfb
        by_cases hl : rest.length = b2 * 2 ^ 24 + b3 * 2 ^ 16 + b4 * 2 ^ 8 + b5
        · rw [if_pos hl] at hfb
          have hh := tryFrom_ok_header _ _ _ _ hfb
          have htg2 : tlv.Tag.fromByte b1 = tlv.Tag.DownloadPiece
              ∨ tlv.Tag.fromByte b1 = tlv.Tag.PieceContent
              ∨ tlv.Tag.fromByte b1 = tlv.Tag.Error := by
            have hpt : p.tag = tlv.Tag.fromByte b1 := by rw [tag_headerOf, hh]
            rwa [hpt] at htag
          have hv := tryFrom_ok_payload_value _ _ _ _ hfb htg2
          rw [length_headerOf, hh, hv]
          exact hl.symm
        · rw [if_neg hl] at hfb
          cases hfb
  refine ⟨hmain, ?_⟩
  rw [hmain]
  exact wire_field_take p

/-- C3 witness: the amended length invariant evaluated on the packet
constructed from tag `PieceContent` and value `[4, 5]`. -/
theorem length_invariant_amended_witness :
    (Vortex.PieceContent ⟨9, tlv.Tag.PieceContent, 2⟩ ⟨[4, 5]⟩ : Vortex).length
      = (Vortex.PieceContent ⟨9, tlv.Tag.PieceContent, 2⟩
          ⟨[4, 5]⟩ : Vortex).serializedValue.length ∧
    (((Vortex.PieceContent ⟨9, tlv.Tag.PieceContent, 2⟩ ⟨[4, 5]⟩ : Vortex).to_bytes).drop 2).take 4
      = toBe32 (Vortex.PieceContent ⟨9, tlv.Tag.PieceContent, 2⟩ ⟨[4, 5]⟩ : Vortex).length :=
  length_invariant_amended (Vortex.PieceContent ⟨9, tlv.Tag.PieceContent, 2⟩ ⟨[4, 5]⟩)
    (Or.inl ⟨[9], tlv.Tag.PieceContent, [4, 5], by decide⟩)
    (Or.inr (Or.inl rfl))

/-- C6: every successfully decoded packet's packet id equals byte 0 of the
input buffer, taken verbatim from the wire; consequently a packet id assigned
by construction is preserved unchanged through encode followed by decode. -/
theorem packet_id_stability (buf : List Nat) (q : Vortex) (rng : RngState) (tg : tlv.Tag)
    (value : List Nat) (p q2 : Vortex) :
    (Vortex.from_bytes buf = .ok q → q.packet_id = buf.getD 0 0) ∧
    ((Vortex.new rng tg value).1 = .ok p → Vortex.from_bytes p.to_bytes = .ok q2 →
      q2.packet_id = p.packet_id) := by
  have part1 : ∀ (b : List Nat) (r : Vortex), Vortex.from_bytes b = .ok r →
      r.packet_id = b.getD 0 0 := by
    intro b r hfb
    by_cases h6 : b.length < 6
    · have h6' : b.length < HEADER_SIZE := h6
      simp only [Vortex.from_bytes, h6', if_true] at hfb
      cases hfb
    · push_neg at h6
      obtain ⟨b0, b1, b2, b3, b4, b5, rest, rfl⟩ := list_len6_decomp b h6
      rw [from_bytes_cons] at hfb
      by_cases hl : rest.length = b2 * 2 ^ 24 + b3 * 2 ^ 16 + b4 * 2 ^ 8 + b5
      · rw [if_pos hl] at hfb
        have hh := tryFrom_ok_header _ _ _ _ hfb
        rw [packet_id_headerOf, hh]
        rfl
      · rw [if_neg hl] at hfb
        cases hfb
  refine ⟨part1 buf q, fun _ hfb2 => ?_⟩
  have h2 := part1 p.to_bytes q2 hfb2
  have h3 : (p.to_bytes).getD 0 0 = p.headerOf.packet_id := rfl
  rw [h2, h3, ← packet_id_headerOf]

/-- C6 witness: packet-id stability evaluated on the buffer
`[9, 7, 0, 0, 0, 0]` and on a constructed Reserved packet. -/
theorem packet_id_stability_witness :
    (Vortex.Reserved ⟨9, tlv.Tag.Reserved 7, 0⟩ : Vortex).packet_id = [9, 7, 0, 0, 0, 0].getD 0 0 ∧
    (Vortex.Reserved ⟨9, tlv.Tag.Reserved 7, 0⟩ : Vortex).packet_id =
      (Vortex.Reserved ⟨9, tlv.Tag.Reserved 7, 0⟩ : Vortex).packet_id :=
  ⟨(packet_id_stability [9, 7, 0, 0, 0, 0] (Vortex.Reserved ⟨9, tlv.Tag.Reserved 7, 0⟩)
      [] tlv.Tag.Close [] (Vortex.Close ⟨0, tlv.Tag.Close, 0⟩)
      (Vortex.Close ⟨0, tlv.Tag.Close, 0⟩)).1 (by decide),
   (packet_id_stability [9, 7, 0, 0, 0, 0] (Vortex.Reserved ⟨9, tlv.Tag.Reserved 7, 0⟩)
      [9] (tlv.Tag.Reserved 7) [] (Vortex.Reserved ⟨9, tlv.Tag.Reserved 7, 0⟩)
      (Vortex.Reserved ⟨9, tlv.Tag.Reserved 7, 0⟩)).2 (by decide) (by decide)⟩

/-- C7: for every packet, encoding produces byte 0 = packet id, byte 1 = the
tag's code, bytes 2-5 = the serialized payload length as a big-endian 32-bit
unsigned integer, followed by the serialized payload bytes, and the total
output length is exactly 6 plus the serialized payload length. -/
theorem encode_layout (p : Vortex) :
    (p.to_bytes).getD 0 0 = p.packet_id ∧
    (p.to_bytes).getD 1 0 = (p.tag).toByte ∧
    ((p.to_bytes).drop 2).take 4 = toBe32 p.serializedValue.length ∧
    (p.to_bytes).drop 6 = p.serializedValue ∧
    (p.to_bytes).length = 6 + p.serializedValue.length := by
  refine ⟨?_, ?_, wire_field_take p, ?_, ?_⟩
  · cases p <;> rfl
  · cases p <;> rfl
  · simp only [Vortex.to_bytes, toBe32, List.cons_append, List.nil_append]
    norm_num [List.drop]
  · simp only [Vortex.to_bytes, toBe32, List.cons_append, List.nil_append,
      List.length_cons, List.length_append]
    omega

/-- C8: decoding is total over all input buffers — every outcome is either a
packet or a typed structural (`InvalidPacket`) or length (`InvalidLength`)
error, and the byte-slice-to-u32 conversion error (`TryFromSlice`) can never
escape, its 4-byte precondition being guaranteed by the 6-byte minimum
check. -/
theorem decode_total_typed_errors (bytes : List Nat) :
    ((∃ p, Vortex.from_bytes bytes = .ok p) ∨
      (∃ msg, Vortex.from_bytes bytes = .error (.InvalidPacket msg)) ∨
      (∃ msg, Vortex.from_bytes bytes = .error (.InvalidLength msg))) ∧
    (∀ msg, Vortex.from_bytes bytes ≠ .error (.TryFromSlice msg)) := by
  have hmain : (∃ p, Vortex.from_bytes bytes = .ok p) ∨
      (∃ msg, Vortex.from_bytes bytes = .error (.InvalidPacket msg)) ∨
      (∃ msg, Vortex.from_bytes bytes = .error (.InvalidLength msg)) := by
    by_cases h6 : bytes.length < 6
    · right; left
      have h6' : bytes.length < HEADER_SIZE := h6
      exact ⟨_, by simp only [Vortex.from_bytes, h6', if_true]; rfl⟩
    · push_neg at h6
      obtain ⟨b0, b1, b2, b3, b4, b5, rest, rfl⟩ := list_len6_decomp _ h6
      rw [from_bytes_cons]
      by_cases hl : rest.length = b2 * 2 ^ 24 + b3 * 2 ^ 16 + b4 * 2 ^ 8 + b5
      · rw [if_pos hl]
        cases htg : tlv.Tag.fromByte b1 with
        | DownloadPiece =>
            by_cases hm : rest.length > MAX_VALUE_SIZE
            · exact Or.inr (Or.inr ⟨_, by
                simp only [Vortex.tryFrom, tlv.DownloadPiece.tryFrom, hm, if_true, Except.map]; rfl⟩)
            · exact Or.inl ⟨_, by
                simp only [Vortex.tryFrom, tlv.DownloadPiece.tryFrom, hm, if_false, Except.map]; rfl⟩
        | PieceContent =>
            by_cases hm : rest.length > MAX_VALUE_SIZE
            · exact Or.inr (Or.inr ⟨_, by
                simp only [Vortex.tryFrom, tlv.PieceContent.tryFrom, hm, if_true, Except.map]; rfl⟩)
            · exact Or.inl ⟨_, by
                simp only [Vortex.tryFrom, tlv.PieceContent.tryFrom, hm, if_false, Except.map]; rfl⟩
        | Error =>
            by_cases hm : rest.length > MAX_VALUE_SIZE
            · exact Or.inr (Or.inr ⟨_, by
                simp only [Vortex.tryFrom, tlv.ErrorPayload.tryFrom, hm, if_true, Except.map]; rfl⟩)
            · exact Or.inl ⟨_, by
                simp only [Vortex.tryFrom, tlv.ErrorPayload.tryFrom, hm, if_false, Except.map]; rfl⟩
        | Reserved b => exact Or.inl ⟨_, rfl⟩
        | Close => exact Or.inl ⟨_, rfl⟩
      · rw [if_neg hl]
        exact Or.inr (Or.inr ⟨_, rfl⟩)
  refine ⟨hmain, fun msg h => ?_⟩
  rcases hmain with ⟨r, he⟩ | ⟨m, he⟩ | ⟨m, he⟩ <;> rw [he] at h <;> simp at h

/-- Helper for C9: the declared wire length of any encoding. -/
theorem declared_to_bytes (p : Vortex) :
    declaredLength p.to_bytes = p.serializedValue.length % 2 ^ 32 := by
  simp only [Vortex.to_bytes, toBe32, List.cons_append, List.nil_append, declaredLength]
  norm_num [List.getD]
  omega

/-- Helper for C9: a packet built from a 4 GiB value encodes wire length 0. -/
theorem wire_length_boundary_aux (v : List Nat) (hv : v.length = 2 ^ 32) :
    ((Vortex.new [5] tlv.Tag.PieceContent v).1.map fun q => declaredLength q.to_bytes)
      = .ok 0 := by
  have hmax : ¬ v.length > MAX_VALUE_SIZE := by rw [hv]; decide
  simp only [Vortex.new, Vortex.tryFrom, tlv.PieceContent.tryFrom, hmax, if_false, Except.map]
  rw [declared_to_bytes]
  simp only [Vortex.serializedValue, tlv.PieceContent.toBytes]
  rw [hv]
  norm_num

/-- C9: the 32-bit wire length field of every encoding equals the serialized
payload length reduced modulo `2 ^ 32`; in particular a `PieceContent` packet
constructed from a payload of exactly `2 ^ 32` bytes (4 GiB, the stated
ceiling) is written with a wire length field of 0. -/
theorem wire_length_mod (p : Vortex) :
    declaredLength p.to_bytes = p.serializedValue.length % 2 ^ 32 ∧
    ((Vortex.new [5] tlv.Tag.PieceContent (List.replicate (2 ^ 32) 0)).1.map
      fun q => declaredLength q.to_bytes) = .ok 0 :=
  ⟨declared_to_bytes p, wire_length_boundary_aux _ (List.length_replicate _ _)⟩

/-- C10: every Reserved or Close packet encodes to exactly the 6 header
bytes with wire length field 0 regardless of the value supplied at
construction, and construction with these tags succeeds while discarding the
value bytes yet recording their length in the header. -/
theorem control_tags_empty_payload (h : Header) (rng : RngState) (b : Nat)
    (value : List Nat) :
    Vortex.to_bytes (Vortex.Reserved h) = [h.packet_id, h.tag.toByte, 0, 0, 0, 0] ∧
    Vortex.to_bytes (Vortex.Close h) = [h.packet_id, h.tag.toByte, 0, 0, 0, 0] ∧
    (Vortex.new rng (tlv.Tag.Reserved b) value).1 =
      .ok (Vortex.Reserved ⟨(rng.gen).1, tlv.Tag.Reserved b, value.length⟩) ∧
    (Vortex.new rng tlv.Tag.Close value).1 =
      .ok (Vortex.Close ⟨(rng.gen).1, tlv.Tag.Close, value.length⟩) := by
  refine ⟨?_, ?_, rfl, rfl⟩ <;>
    simp only [Vortex.to_bytes, Vortex.headerOf, Vortex.serializedValue, toBe32,
      List.cons_append, List.nil_append, List.length_nil] <;> norm_num
